import Mathlib

/-!
Verification development for the yieldex-tg-bot cache subsystem.

The definitions below are a shallow embedding of `src/database.py`:
the yield-record data model, the pool-id → protocol parsing, the pure
derivation functions (TVL filter, stable descending sort by APY, take-N,
sorted distinct lists), the `CacheData` cell, the cache orchestrator
(`update_all_caches`, `force_refresh_all_caches`, the precalculation
helpers) as explicit state transformers, and the fragment-cache message
formatter.  Python floats are modelled as rationals, Python `None` as
`Option`, dicts as association lists, and the cooperative-concurrency
environment by passing the pre-call shared state explicitly and
supplying the clock and the remote-store outcome as parameters.
-/

/-- One yield record as produced by the `get_latest_apy_data` RPC and
post-processed by `_fetch_latest_full_apy`.  Missing numeric fields are
`none` (Python `None`); `tvl` is read with `item.get('tvl', 0)` so a
missing TVL is already the number `0`; missing/empty strings are `""`
(falsy in Python). -/
structure YieldRecord where
  pool_id : String
  asset : String
  chain : String
  apy : Option ℚ
  apy_base : Option ℚ
  apy_reward : Option ℚ
  apy_mean_30d : Option ℚ
  tvl : ℚ
  site_url : String
  project : String
  deriving DecidableEq, Repr

/-- Split a list of characters at every occurrence of `sep`, keeping empty
segments; models Python `str.split` with a one-character separator, so the
empty string yields the single segment `[]` (Python `[''']` has one empty
segment as well). -/
def splitCharList (sep : Char) : List Char → List (List Char)
  | [] => [[]]
  | c :: cs =>
    match splitCharList sep cs with
    | [] => [[]]
    | h :: t => if c = sep then [] :: h :: t else (c :: h) :: t

/-- Python `s.split(sep)` for a one-character separator. -/
def pySplit (s : String) (sep : Char) : List String :=
  (splitCharList sep s.toList).map String.mk

/-- Python `sep.join(parts)`. -/
def joinSep (sep : String) : List String → String
  | [] => ""
  | [x] => x
  | x :: y :: t => x ++ sep ++ joinSep sep (y :: t)

/-- Pool-id → protocol parsing, as written identically in
`_fetch_latest_full_apy` and in `format_top_apy_data`:
`parts = pool_id.split('_')`; with at least 3 segments the protocol is
`'_'.join(parts[2:])`, otherwise `parts[0] if parts else ''`. -/
def extract_project (pool_id : String) : String :=
  let parts := pySplit pool_id '_'
  if 3 ≤ parts.length then joinSep "_" (parts.drop 2)
  else
    match parts with
    | [] => ""
    | p :: _ => p

/-- The post-processing loop of `_fetch_latest_full_apy`: when `pool_id`
is present and truthy, store the parsed protocol in `item['project']`. -/
def addProject (r : YieldRecord) : YieldRecord :=
  if r.pool_id = "" then r else { r with project := extract_project r.pool_id }

/-- The sort key `x.get('apy', 0)` used by every APY sort in the source. -/
def apyKey (r : YieldRecord) : ℚ :=
  r.apy.getD 0

/-- Comparison used to model `sorted(..., key=lambda x: x.get('apy', 0),
reverse=True)`: `a` may precede `b` exactly when the key of `a` is at
least the key of `b`. -/
def apyGe (a b : YieldRecord) : Prop :=
  apyKey b ≤ apyKey a

instance : DecidableRel apyGe :=
  fun a b => inferInstanceAs (Decidable (apyKey b ≤ apyKey a))

instance : IsTotal YieldRecord apyGe :=
  ⟨fun a b => le_total (apyKey b) (apyKey a)⟩

instance : IsTrans YieldRecord apyGe :=
  ⟨fun _ _ _ h1 h2 => le_trans h2 h1⟩

/-- Python's `sorted` is a stable sort; any stable sort with respect to the
same key produces the same output list, so the stable `insertionSort` is an
exact model of `sorted(data, key=lambda x: x.get('apy', 0), reverse=True)`. -/
def sortByApyDesc (l : List YieldRecord) : List YieldRecord :=
  l.insertionSort apyGe

/-- The global TVL filter `[item for item in data if item.get('tvl', 0) >= 1000000]`. -/
def filterGlobal (data : List YieldRecord) : List YieldRecord :=
  data.filter fun r => decide ((1000000 : ℚ) ≤ r.tvl)

/-- Python `sorted(list(set(x for x in l if x)))`: the sorted list of the
distinct truthy values. -/
def pySortedSet (l : List String) : List String :=
  ((l.filter fun s => s ≠ "").dedup).insertionSort (· ≤ ·)

/-- Derivation performed by `_fetch_top_apy` once the snapshot is in hand:
`None` on a falsy snapshot, else the first element of the TVL-filtered
APY-descending sort. -/
def fetch_top_apy_of (data : List YieldRecord) : Option YieldRecord :=
  match data with
  | [] => none
  | _ => (sortByApyDesc (filterGlobal data)).head?

/-- Derivation performed by `_fetch_top_three_apy` once the snapshot is in
hand: `[]` on a falsy snapshot, else the first three elements of the
TVL-filtered APY-descending sort. -/
def fetch_top_three_of (data : List YieldRecord) : List YieldRecord :=
  match data with
  | [] => []
  | _ => (sortByApyDesc (filterGlobal data)).take 3

/-- Derivation performed by `_fetch_top_ten_apy`: first ten elements. -/
def fetch_top_ten_of (data : List YieldRecord) : List YieldRecord :=
  match data with
  | [] => []
  | _ => (sortByApyDesc (filterGlobal data)).take 10

/-- The body of `get_top_apy_for_asset` once the snapshot is in hand:
filter by exact asset name and TVL ≥ 100,000, sort all matches by APY
descending with no grouping, return the first three. -/
def get_top_apy_for_asset (data : List YieldRecord) (asset_name : String) :
    List YieldRecord :=
  match data with
  | [] => []
  | _ =>
    let filtered := data.filter fun r =>
      decide (r.asset = asset_name) && decide ((100000 : ℚ) ≤ r.tvl)
    (sortByApyDesc filtered).take 3

/-- A `CacheData` cell from `database.py`: one value slot, the timestamp of
its last successful refresh, and its per-cell asyncio update lock (`locked`
is whether `_update_lock` is currently held).  The transient `_new_data`
scratch field is not observable and is omitted. -/
structure CacheData (α : Type) where
  data : Option α
  timestamp : ℚ
  locked : Bool
  deriving DecidableEq, Repr

/-- Outcome of one call to a `data_fetcher` coroutine: a value, a `None`
result, or a raised exception. -/
inductive FetchOutcome (α : Type) where
  | value (a : α)
  | noData
  | raised
  deriving DecidableEq, Repr

/-- `CacheData.update`: skip (returning `False`) when the per-cell lock is
already held; otherwise run the fetcher, and only on a non-`None` result
install the new value together with a fresh timestamp and return `True`.
A `None` result or a raised exception leaves the cell untouched and
returns `False`. -/
def CacheData.update {α : Type} (c : CacheData α) (fetch : FetchOutcome α)
    (now : ℚ) : Bool × CacheData α :=
  if c.locked then (false, c)
  else
    match fetch with
    | .value a => (true, { c with data := some a, timestamp := now })
    | .noData => (false, c)
    | .raised => (false, c)

/-- `CacheData.get`: non-blocking read of the current value. -/
def CacheData.get {α : Type} (c : CacheData α) : Option α :=
  c.data

/-- `CacheData.is_valid`: value present and younger than the TTL. -/
def CacheData.is_valid {α : Type} (c : CacheData α) (now ttl : ℚ) : Bool :=
  c.data.isSome && decide (now - c.timestamp < ttl)

/-- The process-wide mutable state of `database.py` that the orchestrator
touches: the authoritative snapshot cache, the five derived caches (each
with its timestamp; for `top_apy_cache` the Python value `None` stands both
for an empty cell and for "no qualifying record", exactly as in the
source), the formatted-fragment dict, and the `_cache_updating` flag. -/
structure CacheState where
  fullApy : Option (List YieldRecord)
  fullApyTs : ℚ
  topApy : Option YieldRecord
  topApyTs : ℚ
  topThree : Option (List YieldRecord)
  topThreeTs : ℚ
  topTen : Option (List YieldRecord)
  topTenTs : ℚ
  assets : Option (List String)
  assetsTs : ℚ
  chains : Option (List String)
  chainsTs : ℚ
  fragments : List (String × String)
  cacheUpdating : Bool
  deriving DecidableEq, Repr

/-- Raw outcome of the `get_latest_apy_data` RPC call made by
`_fetch_latest_full_apy`: rows returned, an error payload, or a raised
exception. -/
inductive RpcOutcome where
  | success (rows : List YieldRecord)
  | errorResp
  | raised
  deriving DecidableEq, Repr

/-- `_fetch_latest_full_apy`: on rows, post-process every item with the
protocol parser; on an error payload return `None`; on an exception fall
back to the existing `full_apy_cache` contents when present (`None`
otherwise).  The fallback is why a raised fetch can still hand the caller
a (stale) snapshot. -/
def fetch_latest_full_apy (st : CacheState) (rpc : RpcOutcome) :
    Option (List YieldRecord) :=
  match rpc with
  | .success rows => some (rows.map addProject)
  | .errorResp => none
  | .raised => st.fullApy

/-- `pre_calculate_all_caches`: when the authoritative snapshot is present,
recompute every derived cache from it, stamping all of them with the same
current time; otherwise do nothing (the source returns `False`). -/
def pre_calculate_all_caches (st : CacheState) (now : ℚ) : CacheState :=
  match st.fullApy with
  | none => st
  | some data =>
    let filtered := sortByApyDesc (filterGlobal data)
    { st with
      topApy := filtered.head?
      topApyTs := now
      topThree := some (filtered.take 3)
      topThreeTs := now
      topTen := some (filtered.take 10)
      topTenTs := now
      assets := some (pySortedSet (data.map (·.asset)))
      assetsTs := now
      chains := some (pySortedSet (data.map (·.chain)))
      chainsTs := now }

/-- Observable outcome of one `update_all_caches` call.  The Python
function always returns `None`; the three exits are distinguished by the
log lines it emits ("Update already in progress, skipping", "Failed to get
fresh data from database!", "Update completed"), which this result
models. -/
inductive UpdateResult where
  | skipped
  | fetchFailed
  | updated
  deriving DecidableEq, Repr

/-- One completed run of an orchestrator refresh: its observable outcome,
the shared state at return, and how many RecordStore fetches it made. -/
structure OrchRun where
  result : UpdateResult
  state : CacheState
  fetches : ℕ
  deriving DecidableEq, Repr

/-- `update_all_caches` as a transformer of the shared state.  Under the
`_cache_update_lock` critical section: if `_cache_updating` is already set,
return immediately (zero fetches); otherwise set the flag, fetch, and on a
falsy result abort (the `finally` block clears the flag).  On data: null
every derived cache, clear the fragment dict, install the new snapshot and
timestamp, recompute all derived caches via `pre_calculate_all_caches`,
then clear the flag in the `finally` block. -/
def update_all_caches (st : CacheState) (rpc : RpcOutcome) (now : ℚ) : OrchRun :=
  if st.cacheUpdating then ⟨.skipped, st, 0⟩
  else
    let st1 : CacheState := { st with cacheUpdating := true }
    match fetch_latest_full_apy st1 rpc with
    | none => ⟨.fetchFailed, { st1 with cacheUpdating := false }, 1⟩
    | some [] => ⟨.fetchFailed, { st1 with cacheUpdating := false }, 1⟩
    | some (r :: rest) =>
      let fresh := r :: rest
      let st2 : CacheState := { st1 with
        topApy := none, topThree := none, topTen := none,
        assets := none, chains := none, fragments := [] }
      let st3 : CacheState := { st2 with fullApy := some fresh, fullApyTs := now }
      let st4 := pre_calculate_all_caches st3 now
      ⟨.updated, { st4 with cacheUpdating := false }, 1⟩

/-- `_force_calculate_all_caches`: recompute every derived cache from the
authoritative snapshot; with a falsy snapshot do nothing (returns `False`).
Unlike `pre_calculate_all_caches`, the top-1 timestamp is refreshed only
when some record clears the TVL floor. -/
def force_calculate_all_caches (st : CacheState) (now : ℚ) : CacheState :=
  match st.fullApy with
  | none => st
  | some [] => st
  | some (d :: ds) =>
    let data := d :: ds
    let filtered := sortByApyDesc (filterGlobal data)
    let st1 : CacheState :=
      match filtered.head? with
      | some top => { st with topApy := some top, topApyTs := now }
      | none => { st with topApy := none }
    { st1 with
      topThree := some (filtered.take 3)
      topThreeTs := now
      topTen := some (filtered.take 10)
      topTenTs := now
      assets := some (pySortedSet (data.map (·.asset)))
      assetsTs := now
      chains := some (pySortedSet (data.map (·.chain)))
      chainsTs := now }

/-- One completed run of `force_refresh_all_caches`: its boolean return
value, the shared state at return, and how many fetches it made. -/
structure ForceRun where
  ok : Bool
  state : CacheState
  fetches : ℕ
  deriving DecidableEq, Repr

/-- `force_refresh_all_caches` as a transformer of the shared state.  The
whole body, including the flag check, sits inside `try/.../finally`, so the
`finally` block clears `_cache_updating` even on the skip exit.  On data:
null every cache including the authoritative one, clear the fragment dict,
install the fresh snapshot, recompute via `_force_calculate_all_caches`,
and return `True`. -/
def force_refresh_all_caches (st : CacheState) (rpc : RpcOutcome) (now : ℚ) :
    ForceRun :=
  if st.cacheUpdating then ⟨false, { st with cacheUpdating := false }, 0⟩
  else
    let st1 : CacheState := { st with cacheUpdating := true }
    match fetch_latest_full_apy st1 rpc with
    | none => ⟨false, { st1 with cacheUpdating := false }, 1⟩
    | some [] => ⟨false, { st1 with cacheUpdating := false }, 1⟩
    | some (r :: rest) =>
      let fresh := r :: rest
      let st2 : CacheState := { st1 with
        fullApy := none, topApy := none, topThree := none, topTen := none,
        assets := none, chains := none, fragments := [] }
      let st3 : CacheState := { st2 with fullApy := some fresh, fullApyTs := now }
      let st4 := force_calculate_all_caches st3 now
      ⟨true, { st4 with cacheUpdating := false }, 1⟩

/-- Rank decoration chosen by `format_top_apy_data` after the cache
lookup. -/
def positionEmoji (position : ℕ) : String :=
  if position = 1 then "🥇"
  else if position = 2 then "🥈"
  else if position = 3 then "🥉"
  else "🏅"

/-- Left-pad a digit string with zeros to the requested width. -/
def padZeros (s : String) (len : ℕ) : String :=
  String.mk (List.replicate (len - s.length) '0') ++ s

/-- Decimal rendering of the Python `％.Nf` fixed-point format on the
rational model of a float. -/
def fmtFixed (q : ℚ) (prec : ℕ) : String :=
  let scale : ℤ := (10 : ℤ) ^ prec
  let n : ℤ := round (q * (scale : ℚ))
  let sign := if n < 0 then "-" else ""
  let m := n.natAbs
  if prec = 0 then sign ++ toString m
  else sign ++ toString (m / 10 ^ prec) ++ "." ++ padZeros (toString (m % 10 ^ prec)) prec

/-- The `f"{v:.2f}%" if v is not None else 'N/A'` pattern used for the four
APY fields. -/
def fmtOptPct (q : Option ℚ) : String :=
  match q with
  | some v => fmtFixed v 2 ++ "%"
  | none => "N/A"

/-- TVL formatting of `format_top_apy_data`: millions with one decimal and
an `M` suffix, thousands with a `K` suffix, else whole dollars. -/
def fmtTvl (tvl : ℚ) : String :=
  if (1000000 : ℚ) ≤ tvl then "$" ++ fmtFixed (tvl / 1000000) 1 ++ "M"
  else if (1000 : ℚ) ≤ tvl then "$" ++ fmtFixed (tvl / 1000) 1 ++ "K"
  else "$" ++ fmtFixed tvl 0

/-- Markdown escaping applied to the protocol name. -/
def escapeMd (s : String) : String :=
  (((s.replace "_" "\\_").replace "*" "\\*").replace "[" "\\[").replace "]" "\\]"

/-- The fragment template built by `format_top_apy_data` in `database.py`
on a cache miss, with the literal `POSITION_EMOJI` placeholder that is
substituted only after the cache lookup. -/
def renderFragment (d : YieldRecord) : String :=
  let protocol := extract_project d.pool_id
  let protocol_safe := escapeMd protocol
  let site_link :=
    if d.site_url = "" then "" else "   ├ [Pool Site](" ++ d.site_url ++ ")\n"
  "POSITION_EMOJI *" ++ d.asset ++ "* on *" ++ d.chain ++ "*\n" ++
    "   ┌ Protocol: *" ++ protocol_safe ++ "*\n" ++
    site_link ++
    "   ├ APY Total: *" ++ fmtOptPct d.apy ++ "*\n" ++
    "   ├ APY Base: " ++ fmtOptPct d.apy_base ++ "\n" ++
    "   ├ APY Reward: " ++ fmtOptPct d.apy_reward ++ "\n" ++
    "   ├ Avg APY 30d: " ++ fmtOptPct d.apy_mean_30d ++ "\n" ++
    "   └ TVL: " ++ fmtTvl d.tvl

/-- `format_top_apy_data` from `database.py` (the fragment-cached final
design), with the `_formatted_data_cache` dict threaded explicitly: falsy
data renders a fallback; otherwise the cache is probed with the pool id as
the sole key, a hit substitutes the rank emoji into the cached template,
and a miss renders the template, stores it under the pool id, and then
substitutes the emoji. -/
def format_top_apy_data (cache : List (String × String)) (data : Option YieldRecord)
    (position : ℕ) : String × List (String × String) :=
  match data with
  | none => ("No data available", cache)
  | some d =>
    let cache_key := d.pool_id
    match cache.lookup cache_key with
    | some formatted_text =>
      (formatted_text.replace "POSITION_EMOJI" (positionEmoji position), cache)
    | none =>
      let result := renderFragment d
      (result.replace "POSITION_EMOJI" (positionEmoji position),
        (cache_key, result) :: cache)

/-- The empty process-start state: every cache cell empty, no fragments,
no refresh in progress. -/
def initState : CacheState :=
  { fullApy := none, fullApyTs := 0, topApy := none, topApyTs := 0,
    topThree := none, topThreeTs := 0, topTen := none, topTenTs := 0,
    assets := none, assetsTs := 0, chains := none, chainsTs := 0,
    fragments := [], cacheUpdating := false }

/-- A state in which some refresh is currently in progress. -/
def busyState : CacheState :=
  { initState with cacheUpdating := true }

/-- A qualifying record (TVL above the global floor). -/
def recMain : YieldRecord :=
  { pool_id := "aave_usdc_aave-v3", asset := "USDC", chain := "Ethereum",
    apy := some 5, apy_base := some 4, apy_reward := some 1,
    apy_mean_30d := none, tvl := 2000000, site_url := "", project := "" }

/-- A record whose TVL sits exactly on the 1,000,000 boundary. -/
def recBoundary : YieldRecord :=
  { pool_id := "p_a_b", asset := "USDT", chain := "Base",
    apy := some 7, apy_base := none, apy_reward := none,
    apy_mean_30d := none, tvl := 1000000, site_url := "", project := "" }

/-- A record whose TVL is just below the 1,000,000 boundary. -/
def recBelow : YieldRecord :=
  { pool_id := "p_a_c", asset := "DAI", chain := "Base",
    apy := some 9, apy_base := none, apy_reward := none,
    apy_mean_30d := none, tvl := 999999.99, site_url := "", project := "" }

/-- First of two records tied on APY (both above the global TVL floor). -/
def recTieA : YieldRecord :=
  { pool_id := "p_x_first", asset := "USDC", chain := "Ethereum",
    apy := some 10, apy_base := none, apy_reward := none,
    apy_mean_30d := none, tvl := 2000000, site_url := "", project := "" }

/-- Second of two records tied on APY. -/
def recTieB : YieldRecord :=
  { pool_id := "p_y_second", asset := "DAI", chain := "Arbitrum",
    apy := some 10, apy_base := none, apy_reward := none,
    apy_mean_30d := none, tvl := 3000000, site_url := "", project := "" }

/-- A record meeting the single-asset accessor's 100,000 TVL floor. -/
def recAsset : YieldRecord :=
  { pool_id := "p_a_d", asset := "USDC", chain := "Ethereum",
    apy := some 6, apy_base := none, apy_reward := none,
    apy_mean_30d := none, tvl := 200000, site_url := "", project := "" }

/-- A record whose empty pool id makes the fetch post-processing skip it. -/
def recPlain : YieldRecord :=
  { pool_id := "", asset := "USDT", chain := "Base",
    apy := some 3, apy_base := none, apy_reward := none,
    apy_mean_30d := none, tvl := 5000000, site_url := "", project := "" }

/-- A rendered record for the fragment-cache scenario. -/
def recFragA : YieldRecord :=
  { pool_id := "aave_usdc_v3", asset := "USDC", chain := "Ethereum",
    apy := some 5, apy_base := some 4, apy_reward := some 1,
    apy_mean_30d := some 5, tvl := 1500000, site_url := "https://x", project := "" }

/-- The same pool id as `recFragA` but with different metric values. -/
def recFragB : YieldRecord :=
  { pool_id := "aave_usdc_v3", asset := "USDC", chain := "Ethereum",
    apy := some 99, apy_base := some 98, apy_reward := some 1,
    apy_mean_30d := some 50, tvl := 1700000, site_url := "https://x", project := "" }

/-- Pre-call state for the forced-refresh failure scenario: a snapshot is
cached and one formatted fragment is stored. -/
def c1PreState : CacheState :=
  { fullApy := some [recMain], fullApyTs := 100, topApy := none, topApyTs := 0,
    topThree := none, topThreeTs := 0, topTen := none, topTenTs := 0,
    assets := none, assetsTs := 0, chains := none, chainsTs := 0,
    fragments := [("aave_usdc_aave-v3", "cached fragment")], cacheUpdating := false }

theorem sortByApyDesc_perm (l : List YieldRecord) : List.Perm (sortByApyDesc l) l :=
  List.perm_insertionSort apyGe l

theorem sortByApyDesc_sorted (l : List YieldRecord) :
    (sortByApyDesc l).Sorted apyGe :=
  List.sorted_insertionSort apyGe l

theorem sortByApyDesc_head_max {l : List YieldRecord} {t : YieldRecord}
    (h : (sortByApyDesc l).head? = some t) :
    t ∈ l ∧ ∀ r ∈ l, apyKey r ≤ apyKey t := by
  have hs := sortByApyDesc_sorted l
  have hp := sortByApyDesc_perm l
  cases hm : sortByApyDesc l with
  | nil => rw [hm] at h; simp at h
  | cons x xs =>
    rw [hm] at h hs hp
    simp only [List.head?_cons, Option.some.injEq] at h
    subst h
    rw [List.sorted_cons] at hs
    refine ⟨hp.mem_iff.mp (List.mem_cons_self _ _), ?_⟩
    intro r hr
    rcases List.mem_cons.mp (hp.mem_iff.mpr hr) with hEq | htail
    · exact le_of_eq (congrArg apyKey hEq)
    · exact hs.1 r htail

theorem sortByApyDesc_eq_nil_iff {l : List YieldRecord} :
    sortByApyDesc l = [] ↔ l = [] := by
  rw [← List.length_eq_zero, ← List.length_eq_zero,
    (sortByApyDesc_perm l).length_eq]

/-- C2: for every initial `CacheData` cell whose update lock is free,
`update` with a fetch that fails (returns `None` or raises) leaves the cell
— value and timestamp — unchanged and returns `false`; a fetch returning a
value installs that value together with the fresh timestamp and returns
`true`. -/
theorem cache_update_failure_noop_success_installs {α : Type} (c : CacheData α)
    (fetch : FetchOutcome α) (now : ℚ) (h : c.locked = false) :
    ((fetch = FetchOutcome.noData ∨ fetch = FetchOutcome.raised) →
      CacheData.update c fetch now = (false, c) ∧
      (CacheData.update c fetch now).2.get = c.get ∧
      (CacheData.update c fetch now).2.timestamp = c.timestamp) ∧
    (∀ a : α, fetch = FetchOutcome.value a →
      CacheData.update c fetch now =
        (true, { c with data := some a, timestamp := now })) := by
  constructor
  · rintro (rfl | rfl) <;> simp [CacheData.update, h]
  · rintro a rfl
    simp [CacheData.update, h]

/-- Witness for C2 at a concrete cell and a failing fetch. -/
theorem cache_update_witness :
    CacheData.update (⟨some 5, 10, false⟩ : CacheData ℕ) FetchOutcome.noData 99 =
      (false, (⟨some 5, 10, false⟩ : CacheData ℕ)) :=
  ((cache_update_failure_noop_success_installs
    (⟨some 5, 10, false⟩ : CacheData ℕ) FetchOutcome.noData 99 rfl).1
      (Or.inl rfl)).1

/-- C5: the protocol label derived from a pool identifier is the rejoined
tail from segment 2 on when at least three segments exist, otherwise
segment 0 when any segment exists, otherwise the empty string; in
particular `"a_b_c_d"` gives `"c_d"`, `"a_b"` gives `"a"`, and `""` gives
`""`. -/
theorem protocol_parsing_characterization :
    (∀ s : String,
      extract_project s =
        if 3 ≤ (pySplit s '_').length then joinSep "_" ((pySplit s '_').drop 2)
        else (pySplit s '_').headD "") ∧
    extract_project "a_b_c_d" = "c_d" ∧
    extract_project "a_b" = "a" ∧
    extract_project "" = "" := by
  refine ⟨fun s => ?_, by decide, by decide, by decide⟩
  simp only [extract_project]
  cases pySplit s '_' with
  | nil => rfl
  | cons p t => rfl

/-- C4: rendering a pool id and then rendering the same pool id again —
even from a record whose metric values have changed — with any pair of
rank positions produces two texts that are the same template with only the
rank-decoration emoji substituted, and the template is cached under the
pool identifier alone. -/
theorem fragment_cache_keyed_by_pool_id (cache : List (String × String))
    (d d2 : YieldRecord) (p1 p2 : ℕ) (hkey : d2.pool_id = d.pool_id) :
    ∃ tmpl : String,
      ((format_top_apy_data cache (some d) p1).2).lookup d.pool_id = some tmpl ∧
      (format_top_apy_data cache (some d) p1).1 =
        tmpl.replace "POSITION_EMOJI" (positionEmoji p1) ∧
      (format_top_apy_data ((format_top_apy_data cache (some d) p1).2)
          (some d2) p2).1 =
        tmpl.replace "POSITION_EMOJI" (positionEmoji p2) := by
  cases hl : cache.lookup d.pool_id with
  | some t =>
    refine ⟨t, ?_, ?_, ?_⟩ <;>
      simp [format_top_apy_data, hl, hkey]
  | none =>
    refine ⟨renderFragment d, ?_, ?_, ?_⟩ <;>
      simp [format_top_apy_data, hl, hkey, List.lookup]

/-- Witness for C4: the same pool id rendered at ranks 1 and 2, the second
time from a record with different APY and TVL values. -/
theorem fragment_cache_witness :
    ∃ tmpl : String,
      ((format_top_apy_data [] (some recFragA) 1).2).lookup recFragA.pool_id =
        some tmpl ∧
      (format_top_apy_data [] (some recFragA) 1).1 =
        tmpl.replace "POSITION_EMOJI" (positionEmoji 1) ∧
      (format_top_apy_data ((format_top_apy_data [] (some recFragA) 1).2)
          (some recFragB) 2).1 =
        tmpl.replace "POSITION_EMOJI" (positionEmoji 2) :=
  fragment_cache_keyed_by_pool_id [] recFragA recFragB 1 2 rfl

/-- C6: deriving top-3 from a snapshot is a deterministic pure function;
the result is the three-record prefix of the TVL-filtered APY-descending
sort, and two records tied on total yield that both clear the TVL floor
keep their original snapshot relative order in that sort (stability). -/
theorem top_three_deterministic_and_stable :
    (∀ snap : List YieldRecord, fetch_top_three_of snap = fetch_top_three_of snap) ∧
    (∀ snap : List YieldRecord,
      fetch_top_three_of snap = (sortByApyDesc (filterGlobal snap)).take 3) ∧
    (∀ (snap : List YieldRecord) (a b : YieldRecord),
      apyKey a = apyKey b → List.Sublist [a, b] snap →
      (1000000 : ℚ) ≤ a.tvl → (1000000 : ℚ) ≤ b.tvl →
      List.Sublist [a, b] (sortByApyDesc (filterGlobal snap))) := by
  refine ⟨fun snap => rfl, fun snap => ?_, ?_⟩
  · cases snap <;> rfl
  · intro snap a b hkey hsub hta htb
    have hfilter : List.Sublist ([a, b].filter fun r => decide ((1000000 : ℚ) ≤ r.tvl))
        (filterGlobal snap) := hsub.filter _
    have hab : ([a, b].filter fun r => decide ((1000000 : ℚ) ≤ r.tvl)) = [a, b] := by
      simp [List.filter, hta, htb]
    rw [hab] at hfilter
    exact List.pair_sublist_insertionSort (le_of_eq hkey.symm) hfilter

/-- Witness for C6: two records with equal APY, both above the TVL floor,
stay in snapshot order in the sorted derivation. -/
theorem top_three_stable_witness :
    List.Sublist [recTieA, recTieB] (sortByApyDesc (filterGlobal [recTieA, recTieB])) :=
  top_three_deterministic_and_stable.2.2 [recTieA, recTieB] recTieA recTieB
    (by decide) (List.Sublist.refl _) (by decide) (by decide)

/-- C8: a record with TVL exactly 1,000,000 passes the global top-N filter,
a record with TVL 999,999.99 does not, and the top-1 derivation returns
`none` exactly when no record qualifies and otherwise some qualifying
record of maximal total yield. -/
theorem tvl_boundary_and_top_one :
    (∀ (data : List YieldRecord) (r : YieldRecord),
      r ∈ data → r.tvl = 1000000 → r ∈ filterGlobal data) ∧
    (∀ (data : List YieldRecord) (r : YieldRecord),
      r.tvl = 999999.99 → r ∉ filterGlobal data) ∧
    (∀ data : List YieldRecord,
      fetch_top_apy_of data = none ↔ filterGlobal data = []) ∧
    (∀ (data : List YieldRecord) (t : YieldRecord),
      fetch_top_apy_of data = some t →
      t ∈ filterGlobal data ∧ ∀ r ∈ filterGlobal data, apyKey r ≤ apyKey t) := by
  refine ⟨?_, ?_, ?_, ?_⟩
  · intro data r hmem htvl
    simp [filterGlobal, List.mem_filter, hmem, htvl]
  · intro data r htvl hmem
    rw [filterGlobal, List.mem_filter] at hmem
    rw [htvl] at hmem
    norm_num at hmem
  · intro data
    cases data with
    | nil => simp [fetch_top_apy_of, filterGlobal]
    | cons x xs =>
      show (sortByApyDesc (filterGlobal (x :: xs))).head? = none ↔ _
      rw [List.head?_eq_none_iff]
      exact sortByApyDesc_eq_nil_iff
  · intro data t h
    cases data with
    | nil => simp [fetch_top_apy_of] at h
    | cons x xs => exact sortByApyDesc_head_max h

/-- Witness for C8: the boundary record is kept by the filter; the record
just below the boundary is dropped. -/
theorem tvl_boundary_witness :
    recBoundary ∈ filterGlobal [recBoundary] ∧
    recBelow ∉ filterGlobal [recBelow] :=
  ⟨tvl_boundary_and_top_one.1 [recBoundary] recBoundary (by simp) rfl,
   tvl_boundary_and_top_one.2.1 [recBelow] recBelow rfl⟩

/-- C9: the single-asset accessor returns the three-record prefix of the
APY-descending stable sort of the records matching the asset name with TVL
at least 100,000 (no grouping by chain); hence it has at most three
records, they all match the filter, and the underlying sort is a sorted
permutation of the filtered records. -/
theorem asset_accessor_characterization (data : List YieldRecord)
    (asset_name : String) :
    get_top_apy_for_asset data asset_name =
      (sortByApyDesc (data.filter fun r =>
        decide (r.asset = asset_name) && decide ((100000 : ℚ) ≤ r.tvl))).take 3 ∧
    (get_top_apy_for_asset data asset_name).length ≤ 3 ∧
    List.Perm
      (sortByApyDesc (data.filter fun r =>
        decide (r.asset = asset_name) && decide ((100000 : ℚ) ≤ r.tvl)))
      (data.filter fun r =>
        decide (r.asset = asset_name) && decide ((100000 : ℚ) ≤ r.tvl)) ∧
    (sortByApyDesc (data.filter fun r =>
      decide (r.asset = asset_name) && decide ((100000 : ℚ) ≤ r.tvl))).Sorted apyGe ∧
    (∀ r ∈ get_top_apy_for_asset data asset_name,
      r.asset = asset_name ∧ (100000 : ℚ) ≤ r.tvl) := by
  have heq : get_top_apy_for_asset data asset_name =
      (sortByApyDesc (data.filter fun r =>
        decide (r.asset = asset_name) && decide ((100000 : ℚ) ≤ r.tvl))).take 3 := by
    cases data <;> rfl
  refine ⟨heq, ?_, sortByApyDesc_perm _, sortByApyDesc_sorted _, ?_⟩
  · rw [heq]
    exact le_trans (List.length_take_le 3 _) (le_refl 3)
  · intro r hr
    rw [heq] at hr
    have hmem : r ∈ data.filter fun r =>
        decide (r.asset = asset_name) && decide ((100000 : ℚ) ≤ r.tvl) :=
      (sortByApyDesc_perm _).mem_iff.mp (List.mem_of_mem_take hr)
    rw [List.mem_filter] at hmem
    simpa using hmem.2

/-- Witness for C9: a matching record above the 100,000 floor is reported
with its asset name and TVL bound. -/
theorem asset_accessor_witness :
    recAsset.asset = "USDC" ∧ (100000 : ℚ) ≤ recAsset.tvl :=
  (asset_accessor_characterization [recAsset] "USDC").2.2.2.2 recAsset (by decide)

theorem pySortedSet_sorted (l : List String) : (pySortedSet l).Sorted (· ≤ ·) :=
  List.sorted_insertionSort _ _

theorem pySortedSet_nodup (l : List String) : (pySortedSet l).Nodup :=
  (List.perm_insertionSort _ _).nodup_iff.mpr (List.nodup_dedup _)

theorem pySortedSet_mem (l : List String) (a : String) :
    a ∈ pySortedSet l ↔ (a ≠ "" ∧ a ∈ l) := by
  rw [pySortedSet, List.mem_insertionSort, List.mem_dedup, List.mem_filter]
  simp [and_comm]

theorem cacheState_set_flag_false {st : CacheState} (h : st.cacheUpdating = false) :
    { st with cacheUpdating := false } = st := by
  cases st
  simp_all

theorem fetch_flag_irrelevant (st : CacheState) (rpc : RpcOutcome) :
    fetch_latest_full_apy { st with cacheUpdating := true } rpc =
      fetch_latest_full_apy st rpc := by
  cases rpc <;> rfl

/-- C3: whenever `update_all_caches` completes an update, the state it
leaves behind holds some (non-empty) snapshot, and every derived cache
equals the derivation-function value of that very snapshot: top-1 is the
head of the TVL-filtered APY-descending sort (a maximal qualifying record,
absent exactly when none qualifies), top-3 and top-10 are its prefixes,
and the assets and chains caches are the sorted distinct truthy field
values of the snapshot. -/
theorem update_all_caches_derived_fresh (st : CacheState) (rpc : RpcOutcome)
    (now : ℚ) (h : (update_all_caches st rpc now).result = UpdateResult.updated) :
    ∃ snap : List YieldRecord,
      (update_all_caches st rpc now).state.fullApy = some snap ∧
      (update_all_caches st rpc now).state.topApy =
        (sortByApyDesc (filterGlobal snap)).head? ∧
      (update_all_caches st rpc now).state.topThree =
        some ((sortByApyDesc (filterGlobal snap)).take 3) ∧
      (update_all_caches st rpc now).state.topTen =
        some ((sortByApyDesc (filterGlobal snap)).take 10) ∧
      (update_all_caches st rpc now).state.assets =
        some (pySortedSet (snap.map (·.asset))) ∧
      (update_all_caches st rpc now).state.chains =
        some (pySortedSet (snap.map (·.chain))) ∧
      (∀ t : YieldRecord, (sortByApyDesc (filterGlobal snap)).head? = some t →
        t ∈ filterGlobal snap ∧ ∀ r ∈ filterGlobal snap, apyKey r ≤ apyKey t) ∧
      (∀ a : String, a ∈ pySortedSet (snap.map (·.asset)) ↔
        (a ≠ "" ∧ a ∈ snap.map (·.asset))) ∧
      (∀ c : String, c ∈ pySortedSet (snap.map (·.chain)) ↔
        (c ≠ "" ∧ c ∈ snap.map (·.chain))) := by
  cases hb : st.cacheUpdating with
  | true => rw [update_all_caches] at h; simp [hb] at h
  | false =>
    rw [update_all_caches] at h
    simp only [hb, Bool.false_eq_true, if_false] at h
    cases hf : fetch_latest_full_apy { st with cacheUpdating := true } rpc with
    | none => rw [hf] at h; simp at h
    | some l =>
      cases l with
      | nil => rw [hf] at h; simp at h
      | cons r rest =>
        refine ⟨r :: rest, ?_, ?_, ?_, ?_, ?_, ?_,
          fun t ht => sortByApyDesc_head_max ht,
          fun a => pySortedSet_mem _ a,
          fun c => pySortedSet_mem _ c⟩ <;>
          simp [update_all_caches, hb, hf, pre_calculate_all_caches]

/-- Witness for C3: a successful update from the empty initial state
installs the one-record snapshot and consistent derived caches. -/
theorem update_all_caches_witness :
    ∃ snap : List YieldRecord,
      (update_all_caches initState (RpcOutcome.success [recPlain]) 42).state.fullApy =
        some snap ∧
      (update_all_caches initState (RpcOutcome.success [recPlain]) 42).state.topApy =
        (sortByApyDesc (filterGlobal snap)).head? ∧
      (update_all_caches initState (RpcOutcome.success [recPlain]) 42).state.topThree =
        some ((sortByApyDesc (filterGlobal snap)).take 3) ∧
      (update_all_caches initState (RpcOutcome.success [recPlain]) 42).state.topTen =
        some ((sortByApyDesc (filterGlobal snap)).take 10) ∧
      (update_all_caches initState (RpcOutcome.success [recPlain]) 42).state.assets =
        some (pySortedSet (snap.map (·.asset))) ∧
      (update_all_caches initState (RpcOutcome.success [recPlain]) 42).state.chains =
        some (pySortedSet (snap.map (·.chain))) ∧
      (∀ t : YieldRecord, (sortByApyDesc (filterGlobal snap)).head? = some t →
        t ∈ filterGlobal snap ∧ ∀ r ∈ filterGlobal snap, apyKey r ≤ apyKey t) ∧
      (∀ a : String, a ∈ pySortedSet (snap.map (·.asset)) ↔
        (a ≠ "" ∧ a ∈ snap.map (·.asset))) ∧
      (∀ c : String, c ∈ pySortedSet (snap.map (·.chain)) ↔
        (c ≠ "" ∧ c ∈ snap.map (·.chain))) :=
  update_all_caches_derived_fresh initState (RpcOutcome.success [recPlain]) 42
    (by decide)

/-- C7: the single-flight guard of `update_all_caches`.  A call entering
while `_cache_updating` is already set returns at once with the skipped
signal, performs no RecordStore fetch, and leaves the shared state exactly
as it found it; a call entering with the flag clear performs exactly one
fetch.  Hence two call sites racing one refresh perform one fetch in
total. -/
theorem refresh_single_flight :
    (∀ (st : CacheState) (rpc : RpcOutcome) (now : ℚ), st.cacheUpdating = true →
      update_all_caches st rpc now = ⟨UpdateResult.skipped, st, 0⟩) ∧
    (∀ (st : CacheState) (rpc : RpcOutcome) (now : ℚ), st.cacheUpdating = false →
      (update_all_caches st rpc now).fetches = 1) := by
  constructor
  · intro st rpc now h
    simp [update_all_caches, h]
  · intro st rpc now h
    rw [update_all_caches]
    simp only [h, Bool.false_eq_true, if_false]
    cases hf : fetch_latest_full_apy { st with cacheUpdating := true } rpc with
    | none => rfl
    | some l => cases l <;> rfl

/-- Witness for C7: a second caller entering mid-refresh skips with zero
fetches; a caller entering with the flag clear fetches once. -/
theorem refresh_single_flight_witness :
    update_all_caches busyState RpcOutcome.errorResp 1 =
      ⟨UpdateResult.skipped, busyState, 0⟩ ∧
    (update_all_caches initState RpcOutcome.errorResp 1).fetches = 1 :=
  ⟨refresh_single_flight.1 busyState RpcOutcome.errorResp 1 rfl,
   refresh_single_flight.2 initState RpcOutcome.errorResp 1 rfl⟩

/-- C10: whenever `update_all_caches` returns other than by the skip exit,
the process-wide `_cache_updating` flag is clear, and whenever
`force_refresh_all_caches` returns — by any exit at all, its `finally`
block covering even the skip path — the flag is clear; a failed refresh
therefore never leaves the system unable to refresh again. -/
theorem refresh_flag_always_cleared :
    (∀ (st : CacheState) (rpc : RpcOutcome) (now : ℚ),
      (update_all_caches st rpc now).result ≠ UpdateResult.skipped →
      ((update_all_caches st rpc now).state).cacheUpdating = false) ∧
    (∀ (st : CacheState) (rpc : RpcOutcome) (now : ℚ),
      ((force_refresh_all_caches st rpc now).state).cacheUpdating = false) := by
  constructor
  · intro st rpc now h
    cases hb : st.cacheUpdating with
    | true => rw [update_all_caches] at h; simp [hb] at h
    | false =>
      rw [update_all_caches]
      simp only [hb, Bool.false_eq_true, if_false]
      cases hf : fetch_latest_full_apy { st with cacheUpdating := true } rpc with
      | none => simp [hf]
      | some l => cases l <;> simp [hf]
  · intro st rpc now
    cases hb : st.cacheUpdating with
    | true => simp [force_refresh_all_caches, hb]
    | false =>
      rw [force_refresh_all_caches]
      simp only [hb, Bool.false_eq_true, if_false]
      cases hf : fetch_latest_full_apy { st with cacheUpdating := true } rpc with
      | none => simp [hf]
      | some l => cases l <;> simp [hf]

/-- Witness for C10: a non-skipped (fetch-failed) update run leaves the
flag clear. -/
theorem refresh_flag_cleared_witness :
    ((update_all_caches initState RpcOutcome.errorResp 3).state).cacheUpdating =
      false :=
  refresh_flag_always_cleared.1 initState RpcOutcome.errorResp 3 (by decide)

/-- Counterexample to C1 as stated: from a pre-call state with a cached
snapshot and a stored fragment, a forced refresh whose RecordStore fetch
raises does NOT leave the caches unchanged — `_fetch_latest_full_apy`
swallows the exception and hands back the old snapshot as if it were fresh
data, so the refresh proceeds, clears the fragment cache and advances the
timestamps. -/
theorem force_refresh_failure_counterexample :
    (force_refresh_all_caches c1PreState RpcOutcome.raised 200).state ≠
      c1PreState ∧
    (force_refresh_all_caches c1PreState RpcOutcome.raised 200).state.fragments =
      [] ∧
    c1PreState.fragments = [("aave_usdc_aave-v3", "cached fragment")] := by
  refine ⟨by decide, by decide, rfl⟩

/-- C1 as amended: when the forced refresh's fetch yields no usable data —
an error payload, an empty row set, or an exception with nothing cached to
fall back on — `force_refresh_all_caches` returns `false` and the entire
pre-call state (authoritative snapshot, every derived cache, all
timestamps, and the fragment cache) is returned unchanged. -/
theorem force_refresh_failure_noop (st : CacheState) (rpc : RpcOutcome) (now : ℚ)
    (hflag : st.cacheUpdating = false)
    (hfail : fetch_latest_full_apy st rpc = none ∨
      fetch_latest_full_apy st rpc = some []) :
    (force_refresh_all_caches st rpc now).state = st ∧
    (force_refresh_all_caches st rpc now).ok = false := by
  have hT := fetch_flag_irrelevant st rpc
  rcases hfail with hf | hf <;>
  · rw [force_refresh_all_caches]
    simp only [hflag, Bool.false_eq_true, if_false, hT, hf]
    exact ⟨cacheState_set_flag_false hflag, trivial⟩

/-- Witness for the amended C1: an error payload from the RecordStore
leaves the initial state untouched. -/
theorem force_refresh_failure_noop_witness :
    (force_refresh_all_caches initState RpcOutcome.errorResp 7).state =
      initState ∧
    (force_refresh_all_caches initState RpcOutcome.errorResp 7).ok = false :=
  force_refresh_failure_noop initState RpcOutcome.errorResp 7 rfl (Or.inl rfl)
